import Mathlib

/-!
Shallow embedding of the ContSysSim container-simulation core
(`src/container_simulation`): the four-dimensional resource data model,
the first-fit-with-reservations load balancer
(`loadbalancer.py`), the container per-tick update (`container.py`),
and the node monitor/stop logic (`node.py`).

All resource quantities are modelled as rationals (Python floats/ints are
exact on the small values involved; RAM/disk/bw are integers in the source
but Python's arbitrary-precision ints embed into ℚ and no claim depends on
integrality).  Random draws (`random.uniform` / `random.randint`) are
modelled as explicit input streams: a theorem quantifying over all streams
covers every outcome of the PRNG, and a concrete trace supplies draws that
lie inside the ranges the source passes to the PRNG.
-/

attribute [local semireducible] Rat.add Rat.sub Rat.mul Rat.inv

/-- A value for each of the four resource dimensions (cpu, ram, disk, bw). -/
structure Dims where
  cpu : ℚ
  ram : ℚ
  disk : ℚ
  bw : ℚ
deriving DecidableEq, Repr

instance : Add Dims := ⟨fun a b => ⟨a.cpu + b.cpu, a.ram + b.ram, a.disk + b.disk, a.bw + b.bw⟩⟩

instance : OfNat Dims 0 := ⟨⟨0, 0, 0, 0⟩⟩

/-- Embedding of `WorkloadRequest` (workload_request.py): base demands,
delay/duration, saturation percentages, an id, an optional type label and
the `active` flag. -/
structure WorkloadRequest where
  id : ℕ
  cpu : ℚ
  ram : ℚ
  disk : ℚ
  bw : ℚ
  delay : ℚ
  duration : ℚ
  cpu_saturation_percent : ℚ
  ram_saturation_percent : ℚ
  disk_saturation_percent : ℚ
  bw_saturation_percent : ℚ
  workload_type : Option String
  active : Bool
deriving DecidableEq, Repr

/-- The four base demands of a workload as a `Dims` vector. -/
def WorkloadRequest.dims (w : WorkloadRequest) : Dims :=
  ⟨w.cpu, w.ram, w.disk, w.bw⟩

/-- Embedding of `Container` (container.py): base capacities, saturation
percentages, current usage, running flag, the admission-time → workload-list
map (an ordered association list, as Python dicts preserve insertion
order), and the five history buffers. -/
structure Container where
  id : ℕ
  cpu : ℚ
  ram : ℚ
  disk : ℚ
  bw : ℚ
  cpu_saturation_percent : ℚ
  ram_saturation_percent : ℚ
  disk_saturation_percent : ℚ
  bw_saturation_percent : ℚ
  current_cpu_usage : ℚ
  current_ram_usage : ℚ
  current_disk_usage : ℚ
  current_bw_usage : ℚ
  running : Bool
  workload_requests : List (ℚ × List WorkloadRequest)
  cpu_usage_history : List ℚ
  ram_usage_history : List ℚ
  disk_usage_history : List ℚ
  bw_usage_history : List ℚ
  time_history : List ℚ
deriving DecidableEq, Repr

/-- Source `Container.__init__`: zero usage, not running, empty workload map and
empty history buffers. -/
def Container.mk0 (i : ℕ) (cpu ram disk bw csat rsat dsat bsat : ℚ) : Container :=
  ⟨i, cpu, ram, disk, bw, csat, rsat, dsat, bsat, 0, 0, 0, 0, false, [], [], [], [], [], []⟩

/-- Source `Container.available_cpu`: `max(0.0, self.cpu - self.current_cpu_usage)`. -/
def Container.available_cpu (c : Container) : ℚ := max 0 (c.cpu - c.current_cpu_usage)

/-- Source `Container.available_ram`: `max(0, self.ram - self.current_ram_usage)`. -/
def Container.available_ram (c : Container) : ℚ := max 0 (c.ram - c.current_ram_usage)

/-- Source `Container.available_disk`: `max(0, self.disk - self.current_disk_usage)`. -/
def Container.available_disk (c : Container) : ℚ := max 0 (c.disk - c.current_disk_usage)

/-- Source `Container.available_bw`: `max(0, self.bw - self.current_bw_usage)`. -/
def Container.available_bw (c : Container) : ℚ := max 0 (c.bw - c.current_bw_usage)

/-- Python `int(x)` on a float: truncation toward zero. -/
def pyInt (q : ℚ) : ℤ := if 0 ≤ q then ⌊q⌋ else ⌈q⌉

/-- The tick list `range(int(start_time), int(end_time) + 1)` used by the
load balancer's reservation loop. -/
def forecastTicks (start_time end_time : ℚ) : List ℤ :=
  (List.range (pyInt end_time + 1 - pyInt start_time).toNat).map
    (fun k : ℕ => pyInt start_time + (k : ℤ))

/-- Source `FirstFitReservationComponentLoadBalancer.is_suitable_runner`: the
classic first-fit test against currently available headroom. -/
def is_suitable_runner (w : WorkloadRequest) (c : Container) : Bool :=
  decide (w.ram ≤ c.available_ram) && decide (w.cpu ≤ c.available_cpu) &&
    decide (w.disk ≤ c.available_disk) && decide (w.bw ≤ c.available_bw)

/-- Source `FirstFitReservationComponentLoadBalancer.can_accommodate_workload`:
with reservations disabled, fall back to `is_suitable_runner`; with
reservations enabled, require forecast + demand within the *base*
capacities at every tick of `range(int(start_time), int(end_time)+1)`.
The per-container forecast is a total function ℤ → Dims with default 0,
matching `forecast[eu].get(time, {}).get(dim, 0)`. -/
def can_accommodate_workload (use_reservations : Bool) (c : Container)
    (w : WorkloadRequest) (start_time end_time : ℚ) (fc : ℤ → Dims) : Bool :=
  if !use_reservations then
    is_suitable_runner w c
  else
    (forecastTicks start_time end_time).all fun t =>
      !(decide (c.cpu < (fc t).cpu + w.cpu) || decide (c.ram < (fc t).ram + w.ram) ||
        decide (c.disk < (fc t).disk + w.disk) || decide (c.bw < (fc t).bw + w.bw))

/-- Source `FirstFitReservationComponentLoadBalancer.update_forecast`: with
reservations enabled, add the workload's demands to the container's
forecast at every tick of the window; otherwise leave it unchanged. -/
def update_forecast (use_reservations : Bool) (w : WorkloadRequest)
    (start_time end_time : ℚ) (fc : ℤ → Dims) : ℤ → Dims :=
  if !use_reservations then fc
  else fun t =>
    if t ∈ forecastTicks start_time end_time then fc t + w.dims else fc t

/-- The inner `for container in self._containers` loop of
`assign_workload_req_to_container`, returning the index of the first
container that can accommodate the workload (with its own forecast). -/
def firstFitIdx (use_reservations : Bool) (w : WorkloadRequest) :
    List Container → List (ℤ → Dims) → Option ℕ
  | [], _ => none
  | _ :: _, [] => none
  | c :: cs, fc :: fcs =>
    if can_accommodate_workload use_reservations c w w.delay
        (w.delay + w.duration) fc then
      some 0
    else
      (firstFitIdx use_reservations w cs fcs).map (· + 1)

/-- Replace the `j`-th forecast by its update for workload `w`. -/
def updateForecastAt (use_reservations : Bool) (w : WorkloadRequest)
    (fcs : List (ℤ → Dims)) (j : ℕ) : List (ℤ → Dims) :=
  fcs.mapIdx fun i fc =>
    if i = j then update_forecast use_reservations w w.delay (w.delay + w.duration) fc
    else fc

/-- Error raised when no container fits a workload: `RuntimeError` carrying
the workload's type and its delay (the "time" in the message). -/
structure PlacementError where
  workload_type : Option String
  delay : ℚ
deriving DecidableEq, Repr

/-- Source `FirstFitReservationContainerLoadBalancer.assign_workload_req_to_container`:
process the batch in order; each workload is admitted to the first fitting
container (recording its index) and the forecast is updated; if none fits,
the batch aborts with a `PlacementError`.  The returned list holds the
container indices of the workloads admitted before any abort. -/
def assign_workload_req_to_container (use_reservations : Bool)
    (cs : List Container) :
    List WorkloadRequest → List (ℤ → Dims) → List ℕ × Option PlacementError
  | [], _ => ([], none)
  | w :: ws, fcs =>
    match firstFitIdx use_reservations w cs fcs with
    | none => ([], some ⟨w.workload_type, w.delay⟩)
    | some j =>
      let rest := assign_workload_req_to_container use_reservations cs ws
        (updateForecastAt use_reservations w fcs j)
      (j :: rest.1, rest.2)

/-- Run the load balancer from the empty forecast
(`container_resource_forecast = {container: {} for container in containers}`). -/
def runLoadBalancer (use_reservations : Bool) (cs : List Container)
    (ws : List WorkloadRequest) : List ℕ × Option PlacementError :=
  assign_workload_req_to_container use_reservations cs ws
    (cs.map fun _ => (fun _ => (0 : Dims)))

instance : Sub Dims := ⟨fun a b => ⟨a.cpu - b.cpu, a.ram - b.ram, a.disk - b.disk, a.bw - b.bw⟩⟩

/-- The body of the `for workload_request in workload_requests` loop inside
`Container.run` at virtual time `now`, for a workload admitted at
`receive_time`.  The `Dims` argument is the quadruple of random draws this
visit consumes (`current_*_workload` in the first two branches,
`current_*_saturation` in the last).  Returns the updated usage and `none`
when the workload completed (it is appended to `completed_workloads` and
removed after the loop). -/
def processWorkload (now receive_time : ℚ) (usage : Dims) (w : WorkloadRequest)
    (d : Dims) : Dims × Option WorkloadRequest :=
  let start_time := receive_time + w.delay
  let end_time := start_time + w.duration
  if start_time ≤ now ∧ now < end_time ∧ w.active = false then
    (usage + d, some { w with active := true })
  else if end_time ≤ now ∧ w.active = true then
    (usage - d, none)
  else
    (usage + d, some w)

/-- One admission bucket of `Container.run`'s loop: fold `processWorkload`
over the bucket's workloads, consuming one `Dims` draw per workload and
dropping completed ones. -/
def processBucket (now receive_time : ℚ) :
    Dims → List WorkloadRequest → List Dims →
      Dims × List WorkloadRequest × List Dims
  | usage, [], rs => (usage, [], rs)
  | usage, w :: ws, rs =>
    let step := processWorkload now receive_time usage w (rs.headD 0)
    let rest := processBucket now receive_time step.1 ws rs.tail
    match step.2 with
    | none => rest
    | some w' => (rest.1, w' :: rest.2.1, rest.2.2)

/-- The outer loop of `Container.run` over the admission-time buckets;
empty buckets are deleted from the map. -/
def processBuckets (now : ℚ) :
    Dims → List (ℚ × List WorkloadRequest) → List Dims →
      Dims × List (ℚ × List WorkloadRequest) × List Dims
  | usage, [], rs => (usage, [], rs)
  | usage, (t, ws) :: bs, rs =>
    let bkt := processBucket now t usage ws rs
    let rest := processBuckets now bkt.1 bs bkt.2.2
    if bkt.2.1.isEmpty then rest
    else (rest.1, (t, bkt.2.1) :: rest.2.1, rest.2.2)

/-- One iteration of the `Container.run` loop at virtual time `now` (the
source yields a timeout of 1 between iterations).  When `running`, in
source order: the workload loop, `add_base_saturation` (whose four draws
are the first `Dims` left on the stream), `prevent_resources` (clamp at 0)
and `store_history`.  When not running, nothing happens. -/
def container_run_tick (now : ℚ) (rs : List Dims) (c : Container) : Container :=
  if c.running then
    let u0 : Dims := ⟨c.current_cpu_usage, c.current_ram_usage,
      c.current_disk_usage, c.current_bw_usage⟩
    let res := processBuckets now u0 c.workload_requests rs
    let u1 := res.1 + res.2.2.headD 0
    let u2 : Dims := ⟨max 0 u1.cpu, max 0 u1.ram, max 0 u1.disk, max 0 u1.bw⟩
    { c with
      current_cpu_usage := u2.cpu
      current_ram_usage := u2.ram
      current_disk_usage := u2.disk
      current_bw_usage := u2.bw
      workload_requests := res.2.1
      cpu_usage_history := c.cpu_usage_history ++ [u2.cpu]
      ram_usage_history := c.ram_usage_history ++ [u2.ram]
      disk_usage_history := c.disk_usage_history ++ [u2.disk]
      bw_usage_history := c.bw_usage_history ++ [u2.bw]
      time_history := c.time_history ++ [now] }
  else c

/-- Source `Container.add_workload_request`: skip when the identical workload is
already present in some bucket, otherwise append under the key `env.now`
(appending the key at the end when absent, as Python dicts preserve
insertion order). -/
def add_workload_request (now : ℚ) (w : WorkloadRequest) (c : Container) : Container :=
  if c.workload_requests.any (fun b => b.2.contains w) then c
  else if c.workload_requests.any (fun b => b.1 = now) then
    { c with workload_requests :=
        c.workload_requests.map fun b => if b.1 = now then (b.1, b.2 ++ [w]) else b }
  else
    { c with workload_requests := c.workload_requests ++ [(now, [w])] }

/-- The externally visible operations on a container during a run: a `run`
loop iteration, an admission, and the end of `Container.start` (which sets
`running = True` after `start_up_delay`). -/
inductive ContainerEvent
  | tick (now : ℚ) (draws : List Dims)
  | addReq (now : ℚ) (w : WorkloadRequest)
  | start

/-- Apply one container event. -/
def containerStep (c : Container) : ContainerEvent → Container
  | .tick now rs => container_run_tick now rs c
  | .addReq now w => add_workload_request now w c
  | .start => { c with running := true }

/-- A container run: fold the events over the state. -/
def containerRun (c : Container) (evs : List ContainerEvent) : Container :=
  evs.foldl containerStep c

/-- Number of `run`-loop iterations executed while the container was
running, along an event list. -/
def runningTickCount : Container → List ContainerEvent → ℕ
  | _, [] => 0
  | c, ev :: evs =>
    (match ev with
     | .tick _ _ => if c.running then 1 else 0
     | _ => 0) + runningTickCount (containerStep c ev) evs

/-- Embedding of `Node` (node.py): base capacities, fluctuation
percentages, containers, flags, and the nine history buffers (four used-,
four available-, one time). -/
structure NodeState where
  id : ℕ
  cpu : ℚ
  ram : ℚ
  disk : ℚ
  bw : ℚ
  cpu_fluctuation_percent : ℚ
  ram_fluctuation_percent : ℚ
  disk_fluctuation_percent : ℚ
  bw_fluctuation_percent : ℚ
  containers : List Container
  running : Bool
  stop_lack_of_resource : Bool
  cpu_usage_history : List ℚ
  ram_usage_history : List ℚ
  disk_usage_history : List ℚ
  bw_usage_history : List ℚ
  available_cpu_history : List ℚ
  available_ram_history : List ℚ
  available_disk_history : List ℚ
  available_bw_history : List ℚ
  time_history : List ℚ
deriving DecidableEq, Repr

/-- Source `Node.__init__`: not running, empty history buffers. -/
def NodeState.mk0 (i : ℕ) (cpu ram disk bw cf rf df bf : ℚ)
    (containers : List Container) (stop_lack : Bool) : NodeState :=
  ⟨i, cpu, ram, disk, bw, cf, rf, df, bf, containers, false, stop_lack,
    [], [], [], [], [], [], [], [], []⟩

/-- Summed container usage per dimension
(`sum(c.current_*_usage for c in self._containers)`). -/
def NodeState.totalUsage (n : NodeState) : Dims :=
  ⟨(n.containers.map (·.current_cpu_usage)).sum,
   (n.containers.map (·.current_ram_usage)).sum,
   (n.containers.map (·.current_disk_usage)).sum,
   (n.containers.map (·.current_bw_usage)).sum⟩

/-- Source `Node.add_base_fluctuation`: sample a fluctuation per dimension (the
`Dims` argument), clamp `base + fluctuation` to `[0, base]` and append to
the available-capacity histories. -/
def add_base_fluctuation (d : Dims) (n : NodeState) : NodeState :=
  { n with
    available_cpu_history := n.available_cpu_history ++ [max 0 (min n.cpu (n.cpu + d.cpu))]
    available_ram_history := n.available_ram_history ++ [max 0 (min n.ram (n.ram + d.ram))]
    available_disk_history := n.available_disk_history ++ [max 0 (min n.disk (n.disk + d.disk))]
    available_bw_history := n.available_bw_history ++ [max 0 (min n.bw (n.bw + d.bw))] }

/-- Source `Node.prevent_resources`: clamp the *base* capacities at 0. -/
def node_prevent_resources (n : NodeState) : NodeState :=
  { n with cpu := max 0 n.cpu, ram := max 0 n.ram,
           disk := max 0 n.disk, bw := max 0 n.bw }

/-- Source `Node.store_history`: append summed container usage and `now`. -/
def node_store_history (now : ℚ) (n : NodeState) : NodeState :=
  { n with
    cpu_usage_history := n.cpu_usage_history ++ [n.totalUsage.cpu]
    ram_usage_history := n.ram_usage_history ++ [n.totalUsage.ram]
    disk_usage_history := n.disk_usage_history ++ [n.totalUsage.disk]
    bw_usage_history := n.bw_usage_history ++ [n.totalUsage.bw]
    time_history := n.time_history ++ [now] }

/-- Source `Node.available_cpu`: last element of the available-history (else the
base capacity) minus summed container usage, clamped at 0. -/
def NodeState.available_cpu (n : NodeState) : ℚ :=
  max 0 ((n.available_cpu_history.getLast?.getD n.cpu) - n.totalUsage.cpu)

/-- Source `Node.available_ram`. -/
def NodeState.available_ram (n : NodeState) : ℚ :=
  max 0 ((n.available_ram_history.getLast?.getD n.ram) - n.totalUsage.ram)

/-- Source `Node.available_disk`. -/
def NodeState.available_disk (n : NodeState) : ℚ :=
  max 0 ((n.available_disk_history.getLast?.getD n.disk) - n.totalUsage.disk)

/-- Source `Node.available_bw`. -/
def NodeState.available_bw (n : NodeState) : ℚ :=
  max 0 ((n.available_bw_history.getLast?.getD n.bw) - n.totalUsage.bw)

/-- The dimension named by an `InsufficientResourcesError`. -/
inductive ResourceKind
  | cpu
  | ram
  | disk
  | bw
deriving DecidableEq, Repr

/-- Source `Node.check_resources`: raise for the first dimension (cpu, ram, disk,
bw in source order) whose summed usage exceeds availability; `none` when
all pass. -/
def check_resources (n : NodeState) : Option ResourceKind :=
  if n.available_cpu < n.totalUsage.cpu then some .cpu
  else if n.available_ram < n.totalUsage.ram then some .ram
  else if n.available_disk < n.totalUsage.disk then some .disk
  else if n.available_bw < n.totalUsage.bw then some .bw
  else none

/-- Source `Node.stop`.  When `stop_lack_of_resource` is false it only warns and
returns.  Otherwise it sets `running = False` and then runs
`for container in self._containers: container.stop()` — but the
`Container` class of this package defines **no** `stop` method, so the
first loop iteration raises `AttributeError`.  The Bool records whether
that raise happens; no container is modified in either case. -/
def node_stop (n : NodeState) : NodeState × Bool :=
  if !n.stop_lack_of_resource then (n, false)
  else
    let n1 := { n with running := false }
    match n1.containers with
    | [] => (n1, false)
    | _ :: _ => (n1, true)

/-- Outcome of one `Node.monitor` loop iteration: proceed to the next
2-unit timeout, terminate via the `except` branch's `return`, or abort
with the `AttributeError` escaping from `self.stop()`. -/
inductive MonitorOutcome
  | nextTick
  | terminated
  | attrError
deriving DecidableEq, Repr

/-- One iteration of the `Node.monitor` loop at time `now` (the source
yields a timeout of 2 between iterations), with the fluctuation draws `d`.
In source order: `add_base_fluctuation`, `prevent_resources`,
`store_history`, `check_resources`; on an `InsufficientResourcesError` the
`except` branch logs, calls `self.stop()` and returns.  Note the loop does
not consult `self.running`. -/
def monitor_tick (now : ℚ) (d : Dims) (n : NodeState) : NodeState × MonitorOutcome :=
  let n1 := node_store_history now (node_prevent_resources (add_base_fluctuation d n))
  match check_resources n1 with
  | none => (n1, .nextTick)
  | some _ =>
    let s := node_stop n1
    (s.1, if s.2 then .attrError else .terminated)

/-- A sequence of monitor iterations (as performed by the monitor
processes registered by `Simulation.run` and respawned by `Node.run`). -/
def nodeMonitorRun (n : NodeState) (evs : List (ℚ × Dims)) : NodeState :=
  evs.foldl (fun m p => (monitor_tick p.1 p.2 m).1) n

/-! ### Concrete fixtures from the spec's scenarios -/

/-- A zero-jitter workload request (`WorkloadRequest(...)` with all
saturation percentages 0 and `active = False`). -/
def mkWorkload (i : ℕ) (cpu ram disk bw delay dur : ℚ) (ty : Option String) :
    WorkloadRequest :=
  ⟨i, cpu, ram, disk, bw, delay, dur, 0, 0, 0, 0, ty, false⟩

/-- Scenario S2, container C1. -/
def c1S2 : Container := Container.mk0 0 2 1024 1024 1000 0 0 0 0

/-- Scenario S2, container C2. -/
def c2S2 : Container := Container.mk0 1 4 3072 5120 3000 0 0 0 0

/-- Scenario S2, workload W1. -/
def w1S2 : WorkloadRequest := mkWorkload 0 1 512 512 400 3 8 (some "W1")

/-- Scenario S2, workload W2. -/
def w2S2 : WorkloadRequest := mkWorkload 1 2 512 1024 400 1 8 (some "W2")

/-- Scenario S2, workload W3. -/
def w3S2 : WorkloadRequest := mkWorkload 2 (1/2) 128 1024 200 1 5 (some "W3")

/-- Scenario S5, the sole container. -/
def c1S5 : Container := Container.mk0 2 1 256 256 100 0 0 0 0

/-- Scenario S5, the sole (oversized) workload. -/
def w1S5 : WorkloadRequest := mkWorkload 3 2 256 256 100 0 1 (some "W1")

/-! ### Load-balancer lemmas -/

/-- Python `int()` is the floor on nonnegative arguments. -/
lemma pyInt_eq_floor {q : ℚ} (h : 0 ≤ q) : pyInt q = ⌊q⌋ := by
  simp [pyInt, h]

/-- Membership in the reservation tick list is the integer interval
`[int(s), int(e)]`. -/
lemma mem_forecastTicks {s e : ℚ} {t : ℤ} :
    t ∈ forecastTicks s e ↔ pyInt s ≤ t ∧ t ≤ pyInt e := by
  simp only [forecastTicks, List.mem_map, List.mem_range]
  constructor
  · rintro ⟨k, hk, rfl⟩
    omega
  · rintro ⟨h1, h2⟩
    exact ⟨(t - pyInt s).toNat, by omega, by omega⟩

/-- The reservation-mode feasibility test unfolded to the per-tick
four-dimension inequalities against the base capacities. -/
lemma can_accommodate_reservation_iff (c : Container) (w : WorkloadRequest)
    (s e : ℚ) (fc : ℤ → Dims) :
    can_accommodate_workload true c w s e fc = true ↔
      ∀ t : ℤ, pyInt s ≤ t → t ≤ pyInt e →
        (fc t).cpu + w.cpu ≤ c.cpu ∧ (fc t).ram + w.ram ≤ c.ram ∧
        (fc t).disk + w.disk ≤ c.disk ∧ (fc t).bw + w.bw ≤ c.bw := by
  show ((forecastTicks s e).all _) = true ↔ _
  rw [List.all_eq_true]
  constructor
  · intro h t h1 h2
    have := h t (mem_forecastTicks.mpr ⟨h1, h2⟩)
    simp only [Bool.not_eq_true', Bool.or_eq_false_iff,
      decide_eq_false_iff_not, not_lt] at this
    exact ⟨this.1.1.1, this.1.1.2, this.1.2, this.2⟩
  · intro h t ht
    obtain ⟨h1, h2⟩ := mem_forecastTicks.mp ht
    obtain ⟨a, b, cc, d⟩ := h t h1 h2
    simp only [Bool.not_eq_true', Bool.or_eq_false_iff,
      decide_eq_false_iff_not, not_lt]
    exact ⟨⟨⟨a, b⟩, cc⟩, d⟩

/-- A selected index points at a container whose feasibility test passed. -/
lemma firstFitIdx_sound {u : Bool} {w : WorkloadRequest} :
    ∀ {cs : List Container} {fcs : List (ℤ → Dims)} {j : ℕ} {c : Container}
      {fc : ℤ → Dims},
      firstFitIdx u w cs fcs = some j → cs.get? j = some c →
      fcs.get? j = some fc →
      can_accommodate_workload u c w w.delay (w.delay + w.duration) fc = true := by
  intro cs
  induction cs with
  | nil => intro fcs j c fc h; simp [firstFitIdx] at h
  | cons c0 cs ih =>
    intro fcs j c fc h hc hf
    cases fcs with
    | nil => simp [firstFitIdx] at h
    | cons fc0 fcs =>
      rw [firstFitIdx] at h
      by_cases hacc : can_accommodate_workload u c0 w w.delay (w.delay + w.duration) fc0 = true
      · rw [if_pos hacc] at h
        cases h
        simp only [List.get?_cons_zero, Option.some.injEq] at hc hf
        rw [← hc, ← hf]
        exact hacc
      · rw [if_neg hacc] at h
        obtain ⟨j', hj', rfl⟩ := Option.map_eq_some'.mp h
        simp only [List.get?_cons_succ] at hc hf
        exact ih hj' hc hf

/-- C1: with `use_reservations=true` the placer selects container `c` for
workload `w` only if for every integer tick `τ ∈ [⌊w.delay⌋, ⌊w.delay +
w.duration⌋]` the already-reserved forecast plus `w`'s demand fits within
`c`'s base capacity in all four dimensions; and `update_forecast` adds
`w`'s four base demands to the forecast at exactly those ticks. -/
theorem reservation_placer_feasibility_and_update (w : WorkloadRequest)
    (hd : 0 ≤ w.delay) (hu : 0 ≤ w.duration) :
    (∀ (cs : List Container) (fcs : List (ℤ → Dims)) (j : ℕ) (c : Container)
        (fc : ℤ → Dims),
      firstFitIdx true w cs fcs = some j → cs.get? j = some c →
      fcs.get? j = some fc →
      ∀ τ : ℤ, ⌊w.delay⌋ ≤ τ → τ ≤ ⌊w.delay + w.duration⌋ →
        (fc τ).cpu + w.cpu ≤ c.cpu ∧ (fc τ).ram + w.ram ≤ c.ram ∧
        (fc τ).disk + w.disk ≤ c.disk ∧ (fc τ).bw + w.bw ≤ c.bw)
    ∧ (∀ (fc : ℤ → Dims) (τ : ℤ),
      (⌊w.delay⌋ ≤ τ → τ ≤ ⌊w.delay + w.duration⌋ →
        update_forecast true w w.delay (w.delay + w.duration) fc τ = fc τ + w.dims)
      ∧ (¬(⌊w.delay⌋ ≤ τ ∧ τ ≤ ⌊w.delay + w.duration⌋) →
        update_forecast true w w.delay (w.delay + w.duration) fc τ = fc τ)) := by
  have hsum : (0:ℚ) ≤ w.delay + w.duration := by linarith
  have hfl : pyInt w.delay = ⌊w.delay⌋ := pyInt_eq_floor hd
  have hfe : pyInt (w.delay + w.duration) = ⌊w.delay + w.duration⌋ :=
    pyInt_eq_floor hsum
  constructor
  · intro cs fcs j c fc hfit hc hf τ h1 h2
    have hacc := firstFitIdx_sound hfit hc hf
    rw [can_accommodate_reservation_iff] at hacc
    exact hacc τ (by rw [hfl]; exact h1) (by rw [hfe]; exact h2)
  · intro fc τ
    constructor
    · intro h1 h2
      show (if τ ∈ forecastTicks w.delay (w.delay + w.duration) then
        fc τ + w.dims else fc τ) = fc τ + w.dims
      rw [if_pos (mem_forecastTicks.mpr ⟨by rw [hfl]; exact h1,
        by rw [hfe]; exact h2⟩)]
    · intro hout
      show (if τ ∈ forecastTicks w.delay (w.delay + w.duration) then
        fc τ + w.dims else fc τ) = fc τ
      rw [if_neg]
      intro hmem
      obtain ⟨a, b⟩ := mem_forecastTicks.mp hmem
      exact hout ⟨by rw [← hfl]; exact a, by rw [← hfe]; exact b⟩

/-- Witness for C1: workload W1 of scenario S2 (delay 3, duration 8) on
idle container C1, empty forecast, tick τ = 5. -/
theorem reservation_placer_feasibility_and_update_witness :
    (((fun _ : ℤ => (0 : Dims)) 5).cpu + w1S2.cpu ≤ c1S2.cpu ∧
      ((fun _ : ℤ => (0 : Dims)) 5).ram + w1S2.ram ≤ c1S2.ram ∧
      ((fun _ : ℤ => (0 : Dims)) 5).disk + w1S2.disk ≤ c1S2.disk ∧
      ((fun _ : ℤ => (0 : Dims)) 5).bw + w1S2.bw ≤ c1S2.bw) ∧
    update_forecast true w1S2 w1S2.delay (w1S2.delay + w1S2.duration)
      (fun _ => 0) 5 = (fun _ : ℤ => (0 : Dims)) 5 + w1S2.dims := by
  have h := reservation_placer_feasibility_and_update w1S2 (by decide) (by decide)
  exact ⟨h.1 [c1S2] [fun _ => 0] 0 c1S2 (fun _ => 0) (by decide) rfl rfl 5
      (by decide) (by decide),
    (h.2 (fun _ => 0) 5).1 (by decide) (by decide)⟩

/-- Counterexample for C2: on scenario S2 with reservations the placer
does **not** produce the assignment W1→C1, W2→C2, W3→C1 (which would be
the index list `[0, 1, 0]`). -/
theorem scenario_s2_not_as_claimed :
    runLoadBalancer true [c1S2, c2S2] [w1S2, w2S2, w3S2] ≠
      ([0, 1, 0], none) := by
  decide

/-- C2 amended: scenario S2 yields W1→C1, W2→C2 and W3→C2: on ticks 3..6
container C1's forecast already reserves 512 disk for W1, and W3's disk
demand 1024 would exceed C1's disk capacity 1024, so W3 is placed on C2. -/
theorem scenario_s2_assignment :
    runLoadBalancer true [c1S2, c2S2] [w1S2, w2S2, w3S2] =
      ([0, 1, 1], none) := by
  decide

/-- Before a selected index, every container failed the feasibility test
(classic first-fit mode, where the test is `is_suitable_runner`). -/
lemma firstFitIdx_false_before {w : WorkloadRequest} :
    ∀ {cs : List Container} {fcs : List (ℤ → Dims)} {j : ℕ},
      firstFitIdx false w cs fcs = some j →
      ∀ {i : ℕ} {c : Container}, i < j → cs.get? i = some c →
      is_suitable_runner w c = false := by
  intro cs
  induction cs with
  | nil => intro fcs j h; simp [firstFitIdx] at h
  | cons c0 cs ih =>
    intro fcs j h i c hij hc
    cases fcs with
    | nil => simp [firstFitIdx] at h
    | cons fc0 fcs =>
      rw [firstFitIdx] at h
      by_cases hacc : can_accommodate_workload false c0 w w.delay
          (w.delay + w.duration) fc0 = true
      · rw [if_pos hacc] at h
        cases h
        omega
      · rw [if_neg hacc] at h
        obtain ⟨j', hj', rfl⟩ := Option.map_eq_some'.mp h
        cases i with
        | zero =>
          simp only [List.get?_cons_zero, Option.some.injEq] at hc
          have : can_accommodate_workload false c0 w w.delay
              (w.delay + w.duration) fc0 = is_suitable_runner w c0 := rfl
          rw [this] at hacc
          rw [← hc]
          exact Bool.eq_false_iff.mpr hacc
        | succ i =>
          simp only [List.get?_cons_succ] at hc
          exact ih hj' (by omega) hc

/-- In the batch loop with `use_reservations=false`, the workload at
position `k` is placed on the container index found at position `k` of the
admitted list, via `firstFitIdx`. -/
lemma assign_false_first_fit {cs : List Container} :
    ∀ (ws : List WorkloadRequest) (fcs : List (ℤ → Dims)) (k j : ℕ)
      (w : WorkloadRequest),
      (assign_workload_req_to_container false cs ws fcs).1.get? k = some j →
      ws.get? k = some w →
      ∀ {i : ℕ} {c : Container}, i < j → cs.get? i = some c →
      is_suitable_runner w c = false := by
  intro ws
  induction ws with
  | nil => intro fcs k j w h; simp [assign_workload_req_to_container] at h
  | cons w0 ws ih =>
    intro fcs k j w h hw
    rw [assign_workload_req_to_container] at h
    cases hfit : firstFitIdx false w0 cs fcs with
    | none => rw [hfit] at h; simp at h
    | some j0 =>
      rw [hfit] at h
      cases k with
      | zero =>
        simp only [List.get?_cons_zero, Option.some.injEq] at h hw
        subst h
        subst hw
        intro i c hij hc
        exact firstFitIdx_false_before hfit hij hc
      | succ k =>
        simp only [List.get?_cons_succ] at h hw
        exact ih _ k j w h hw

/-- C6: with `use_reservations=false` the feasibility test is exactly the
four headroom inequalities with `available = max(0, base - usage)`, and
any workload placed on the `j`-th container found no earlier container
satisfying all four. -/
theorem classic_first_fit_exact_test_and_first_fit :
    (∀ (c : Container) (w : WorkloadRequest) (s e : ℚ) (fc : ℤ → Dims),
      can_accommodate_workload false c w s e fc = true ↔
        (w.cpu ≤ max 0 (c.cpu - c.current_cpu_usage) ∧
         w.ram ≤ max 0 (c.ram - c.current_ram_usage) ∧
         w.disk ≤ max 0 (c.disk - c.current_disk_usage) ∧
         w.bw ≤ max 0 (c.bw - c.current_bw_usage)))
    ∧ (∀ (cs : List Container) (fcs : List (ℤ → Dims))
        (ws : List WorkloadRequest) (k j i : ℕ) (w : WorkloadRequest)
        (c : Container),
      (assign_workload_req_to_container false cs ws fcs).1.get? k = some j →
      ws.get? k = some w → i < j → cs.get? i = some c →
      is_suitable_runner w c = false) := by
  constructor
  · intro c w s e fc
    show is_suitable_runner w c = true ↔ _
    simp only [is_suitable_runner, Bool.and_eq_true, decide_eq_true_iff,
      Container.available_cpu, Container.available_ram,
      Container.available_disk, Container.available_bw]
    tauto
  · intro cs fcs ws k j i w c h hw hij hc
    exact assign_false_first_fit ws fcs k j w h hw hij hc

/-- Fixture for the C6 witness: a workload whose cpu demand exceeds the
first container. -/
def wC6 : WorkloadRequest := mkWorkload 10 4 512 512 400 0 1 none

/-- Fixture for the C6 witness: the small first container. -/
def cA6 : Container := Container.mk0 10 2 1024 1024 1000 0 0 0 0

/-- Fixture for the C6 witness: the large second container. -/
def cB6 : Container := Container.mk0 11 8 4096 4096 4000 0 0 0 0

/-- Witness for C6: `wC6` is placed on container index 1 and the earlier
container `cA6` fails the four-inequality test. -/
theorem classic_first_fit_exact_test_and_first_fit_witness :
    (can_accommodate_workload false cA6 wC6 0 1 (fun _ => 0) = true ↔
      (wC6.cpu ≤ max 0 (cA6.cpu - cA6.current_cpu_usage) ∧
       wC6.ram ≤ max 0 (cA6.ram - cA6.current_ram_usage) ∧
       wC6.disk ≤ max 0 (cA6.disk - cA6.current_disk_usage) ∧
       wC6.bw ≤ max 0 (cA6.bw - cA6.current_bw_usage))) ∧
    is_suitable_runner wC6 cA6 = false := by
  refine ⟨classic_first_fit_exact_test_and_first_fit.1 cA6 wC6 0 1 (fun _ => 0), ?_⟩
  exact classic_first_fit_exact_test_and_first_fit.2 [cA6, cB6]
    [fun _ => 0, fun _ => 0] [wC6] 0 1 0 wC6 cA6 (by decide) (by decide)
    (by decide) (by decide)

/-- C7: a workload that fits no candidate container aborts the batch with
a `PlacementError` naming its type and delay; in scenario S5 the single
oversized workload triggers this and nothing is admitted. -/
theorem placement_infeasibility_aborts_batch :
    (∀ (u : Bool) (cs : List Container) (fcs : List (ℤ → Dims))
        (w : WorkloadRequest) (ws : List WorkloadRequest),
      firstFitIdx u w cs fcs = none →
      assign_workload_req_to_container u cs (w :: ws) fcs =
        ([], some ⟨w.workload_type, w.delay⟩))
    ∧ runLoadBalancer true [c1S5] [w1S5] = ([], some ⟨some "W1", 0⟩) := by
  constructor
  · intro u cs fcs w ws h
    rw [assign_workload_req_to_container, h]
  · decide

/-- Witness for C7: applying the abort property to scenario S5's container
and workload with the empty forecast. -/
theorem placement_infeasibility_aborts_batch_witness :
    assign_workload_req_to_container true [c1S5] [w1S5] [fun _ => 0] =
      ([], some ⟨w1S5.workload_type, w1S5.delay⟩) :=
  placement_infeasibility_aborts_batch.1 true [c1S5] [fun _ => 0] w1S5 []
    (by decide)

/-! ### Container-tick properties -/

/-- Non-negativity of a container's current usage and of every element of
its four usage history buffers. -/
def containerNonneg (c : Container) : Prop :=
  (0 ≤ c.current_cpu_usage ∧ 0 ≤ c.current_ram_usage ∧
   0 ≤ c.current_disk_usage ∧ 0 ≤ c.current_bw_usage) ∧
  ((∀ x ∈ c.cpu_usage_history, 0 ≤ x) ∧ (∀ x ∈ c.ram_usage_history, 0 ≤ x) ∧
   (∀ x ∈ c.disk_usage_history, 0 ≤ x) ∧ (∀ x ∈ c.bw_usage_history, 0 ≤ x))

/-- One container step preserves non-negativity: a running tick ends with
`prevent_resources` clamping every usage at 0 before `store_history`
appends it; the other operations touch neither usage nor histories. -/
lemma containerStep_nonneg (c : Container) (ev : ContainerEvent)
    (h : containerNonneg c) : containerNonneg (containerStep c ev) := by
  cases ev with
  | tick now rs =>
    show containerNonneg (container_run_tick now rs c)
    unfold container_run_tick
    by_cases hr : c.running
    · rw [if_pos hr]
      obtain ⟨-, h2⟩ := h
      refine ⟨⟨le_max_left 0 _, le_max_left 0 _, le_max_left 0 _,
        le_max_left 0 _⟩, ?_, ?_, ?_, ?_⟩ <;>
        · intro x hx
          rcases List.mem_append.mp hx with hx | hx
          · first
              | exact h2.1 x hx
              | exact h2.2.1 x hx
              | exact h2.2.2.1 x hx
              | exact h2.2.2.2 x hx
          · rw [List.mem_singleton.mp hx]
            exact le_max_left 0 _
    · rw [if_neg hr]
      exact h
  | addReq now w =>
    show containerNonneg (add_workload_request now w c)
    unfold add_workload_request
    split
    · exact h
    · split <;> exact h
  | start => exact h

/-- Non-negativity is preserved along any run. -/
lemma containerRun_nonneg :
    ∀ (evs : List ContainerEvent) (c : Container),
      containerNonneg c → containerNonneg (containerRun c evs)
  | [], _, h => h
  | ev :: evs, c, h =>
    containerRun_nonneg evs (containerStep c ev) (containerStep_nonneg c ev h)

/-- C9: for every container, every admission schedule, every sequence of
jitter draws and every tick, usage is ≥ 0 at the end of the tick and every
element of the four usage history buffers is ≥ 0 (histories are
append-only, so the elements of the final buffers are exactly the
appended ones; quantifying over all event lists covers every prefix of a
run). -/
theorem container_usage_and_history_nonneg (i : ℕ)
    (cpu ram disk bw csat rsat dsat bsat : ℚ) (evs : List ContainerEvent) :
    containerNonneg
      (containerRun (Container.mk0 i cpu ram disk bw csat rsat dsat bsat) evs) := by
  refine containerRun_nonneg evs _ ⟨⟨le_refl 0, le_refl 0, le_refl 0, le_refl 0⟩,
    ?_, ?_, ?_, ?_⟩ <;> · intro x hx; cases hx

/-- Witness for C9: a running container ticking once with a negative base
saturation draw still ends at usage 0, and the single history element is
that clamped value 0. -/
theorem container_usage_and_history_nonneg_witness :
    0 ≤ (containerRun
        (Container.mk0 40 2 1024 1024 1000 0 0 0 0)
        [ContainerEvent.start, ContainerEvent.tick 0 [⟨-3, -3, -3, -3⟩]]).current_cpu_usage ∧
    (0 : ℚ) ∈ (containerRun
        (Container.mk0 40 2 1024 1024 1000 0 0 0 0)
        [ContainerEvent.start, ContainerEvent.tick 0 [⟨-3, -3, -3, -3⟩]]).cpu_usage_history ∧
    0 ≤ (0 : ℚ) := by
  refine ⟨(container_usage_and_history_nonneg 40 2 1024 1024 1000 0 0 0 0
      [ContainerEvent.start, ContainerEvent.tick 0 [⟨-3, -3, -3, -3⟩]]).1.1,
    by decide,
    (container_usage_and_history_nonneg 40 2 1024 1024 1000 0 0 0 0
      [ContainerEvent.start, ContainerEvent.tick 0 [⟨-3, -3, -3, -3⟩]]).2.1 0 (by decide)⟩

/-- Failing input for C3: a workload with cpu 2 and 50% cpu saturation
(activation samples range over `[1, 3]`). -/
def wC3 : WorkloadRequest := ⟨20, 2, 0, 0, 0, 0, 1, 50, 0, 0, 0, none, false⟩

/-- Failing input for C3: a zero-jitter running container holding `wC3`
admitted at time 0. -/
def cC3 : Container :=
  { Container.mk0 20 4 1024 1024 1000 0 0 0 0 with
    running := true
    workload_requests := [(0, [wC3])] }

/-- C3 fails on the code: `Container.run` subtracts a *fresh*
`current_cpu_workload` sample at deactivation rather than the remembered
activation sample.  With activation draw 5/2 and deactivation draw 3/2
(both inside the sampler's range `[1, 3]`) the container ends at cpu usage
1 ≠ 0 even though its only workload has finished and been removed. -/
theorem deactivation_subtracts_fresh_sample :
    (containerRun cC3
      [ContainerEvent.tick 0 [⟨5/2, 0, 0, 0⟩, ⟨0, 0, 0, 0⟩],
       ContainerEvent.tick 1 [⟨3/2, 0, 0, 0⟩, ⟨0, 0, 0, 0⟩]]).current_cpu_usage = 1 ∧
    (containerRun cC3
      [ContainerEvent.tick 0 [⟨5/2, 0, 0, 0⟩, ⟨0, 0, 0, 0⟩],
       ContainerEvent.tick 1 [⟨3/2, 0, 0, 0⟩, ⟨0, 0, 0, 0⟩]]).workload_requests = [] ∧
    (1 : ℚ) ≠ 0 := by
  decide

/-- Failing input for C5: a pending workload (delay 5, duration 3, bw 100
with 50% bw saturation) admitted at time 0, not yet in its window at
tick 1. -/
def wC5 : WorkloadRequest := ⟨21, 0, 0, 0, 100, 5, 3, 0, 0, 0, 50, none, false⟩

/-- Failing input for C5: a zero-jitter running container holding `wC5`. -/
def cC5 : Container :=
  { Container.mk0 21 4 1024 1024 1000 0 0 0 0 with
    running := true
    workload_requests := [(0, [wC5])] }

/-- C5 fails on the code: at tick 1 the workload is outside its activation
window `[5, 8)` and stays inactive, yet the final `else` branch of
`Container.run` (which lacks an `active` guard) adds its
`current_bw_saturation` draw 30 (inside the sampler's range `[-50, 50]`)
to the container's usage, so an inactive pending workload contributes
30 ≠ 0. -/
theorem pending_workload_contributes_saturation :
    (containerRun cC5
      [ContainerEvent.tick 1 [⟨0, 0, 0, 30⟩, ⟨0, 0, 0, 0⟩]]).current_bw_usage = 30 ∧
    (containerRun cC5
      [ContainerEvent.tick 1 [⟨0, 0, 0, 30⟩, ⟨0, 0, 0, 0⟩]]).workload_requests
        = [(0, [wC5])] ∧
    wC5.active = false ∧ (30 : ℚ) ≠ 0 := by
  decide

/-! ### Node properties -/

/-- Failing input for C4: a running container whose cpu usage 3 exceeds
the node's capacity 2. -/
def cC4 : Container :=
  { Container.mk0 30 2 1024 1024 1000 0 0 0 0 with
    running := true
    current_cpu_usage := 3 }

/-- Failing input for C4: a node with `stop_lack_of_resource=True`
hosting `cC4`. -/
def nC4 : NodeState := NodeState.mk0 0 2 1024 1024 1000 0 0 0 0 [cC4] true

/-- C4 fails on the code: at a monitor tick observing the cpu violation
with `stop_lack_of_resource=True`, `Node.stop` sets `running=False` but
then calls `container.stop()` on a `Container` that defines no `stop`
method, so the tick aborts with an `AttributeError`: the container is
neither stopped nor zeroed (it remains running with usage 3). -/
theorem node_halt_hits_attribute_error :
    (monitor_tick 2 ⟨0, 0, 0, 0⟩ nC4).2 = MonitorOutcome.attrError ∧
    (monitor_tick 2 ⟨0, 0, 0, 0⟩ nC4).1.running = false ∧
    (monitor_tick 2 ⟨0, 0, 0, 0⟩ nC4).1.containers = [cC4] ∧
    cC4.running = true ∧ cC4.current_cpu_usage = 3 := by
  decide

/-- C10: for every node with `stop_lack_of_resource=true` and at least one
container, `Node.stop` sets `running` to false and then raises
`AttributeError` on the first `container.stop()` call (the
`container_simulation` `Container` class defines no `stop` method), so the
containers are returned unchanged: never marked stopped, usages never
zeroed. -/
theorem node_stop_attribute_error (n : NodeState)
    (h1 : n.stop_lack_of_resource = true) (h2 : n.containers ≠ []) :
    (node_stop n).2 = true ∧ (node_stop n).1.running = false ∧
    (node_stop n).1.containers = n.containers := by
  unfold node_stop
  rw [h1]
  cases hc : n.containers with
  | nil => exact absurd hc h2
  | cons a l => simp [hc]

/-- Witness for C10: the concrete node `nC4`. -/
theorem node_stop_attribute_error_witness :
    (node_stop nC4).2 = true ∧ (node_stop nC4).1.running = false ∧
    (node_stop nC4).1.containers = nC4.containers :=
  node_stop_attribute_error nC4 (by decide) (by decide)

/-! ### History alignment -/

/-- All five container history buffers have length `k`. -/
def containerHistLens (c : Container) (k : ℕ) : Prop :=
  c.cpu_usage_history.length = k ∧ c.ram_usage_history.length = k ∧
  c.disk_usage_history.length = k ∧ c.bw_usage_history.length = k ∧
  c.time_history.length = k

/-- All nine node history buffers have length `k`. -/
def nodeHistLens (n : NodeState) (k : ℕ) : Prop :=
  n.cpu_usage_history.length = k ∧ n.ram_usage_history.length = k ∧
  n.disk_usage_history.length = k ∧ n.bw_usage_history.length = k ∧
  n.available_cpu_history.length = k ∧ n.available_ram_history.length = k ∧
  n.available_disk_history.length = k ∧ n.available_bw_history.length = k ∧
  n.time_history.length = k

/-- A container step appends one element to all five buffers on a running
tick and none otherwise. -/
lemma containerStep_hist_lens (c : Container) (ev : ContainerEvent) (k : ℕ)
    (h : containerHistLens c k) :
    containerHistLens (containerStep c ev)
      (k + (match ev with
            | .tick _ _ => if c.running then 1 else 0
            | _ => 0)) := by
  obtain ⟨h1, h2, h3, h4, h5⟩ := h
  cases ev with
  | tick now rs =>
    show containerHistLens (container_run_tick now rs c) _
    unfold container_run_tick
    by_cases hr : c.running
    · rw [if_pos hr]
      simp only [hr, if_true]
      exact ⟨by simp [h1], by simp [h2], by simp [h3], by simp [h4], by simp [h5]⟩
    · rw [if_neg hr]
      simp only [hr, if_false]
      exact ⟨h1, h2, h3, h4, h5⟩
  | addReq now w =>
    show containerHistLens (add_workload_request now w c) _
    unfold add_workload_request
    split
    · exact ⟨h1, h2, h3, h4, h5⟩
    · split <;> exact ⟨h1, h2, h3, h4, h5⟩
  | start => exact ⟨h1, h2, h3, h4, h5⟩

/-- Along a run, the five container buffers grow by exactly the number of
running ticks. -/
lemma containerRun_hist_lens :
    ∀ (evs : List ContainerEvent) (c : Container) (k : ℕ),
      containerHistLens c k →
      containerHistLens (containerRun c evs) (k + runningTickCount c evs) := by
  intro evs
  induction evs with
  | nil => intro c k h; exact h
  | cons ev evs ih =>
    intro c k h
    have h1 := containerStep_hist_lens c ev k h
    have h2 := ih (containerStep c ev) _ h1
    cases ev with
    | tick now rs =>
      have heq : runningTickCount c (ContainerEvent.tick now rs :: evs) =
          (if c.running then 1 else 0) +
            runningTickCount (containerStep c (ContainerEvent.tick now rs)) evs := rfl
      show containerHistLens
        (containerRun (containerStep c (ContainerEvent.tick now rs)) evs) _
      rw [heq, ← Nat.add_assoc]
      exact h2
    | addReq now w =>
      have heq : runningTickCount c (ContainerEvent.addReq now w :: evs) =
          0 + runningTickCount (containerStep c (ContainerEvent.addReq now w)) evs := rfl
      show containerHistLens
        (containerRun (containerStep c (ContainerEvent.addReq now w)) evs) _
      rw [heq, ← Nat.add_assoc]
      exact h2
    | start =>
      have heq : runningTickCount c (ContainerEvent.start :: evs) =
          0 + runningTickCount (containerStep c ContainerEvent.start) evs := rfl
      show containerHistLens
        (containerRun (containerStep c ContainerEvent.start) evs) _
      rw [heq, ← Nat.add_assoc]
      exact h2

/-- A monitor iteration appends exactly one element to each of the nine
node buffers on every path (the appends all happen before
`check_resources` can raise, and `Node.stop` touches no history). -/
lemma monitor_tick_hist_lens (now : ℚ) (d : Dims) (n : NodeState) (k : ℕ)
    (h : nodeHistLens n k) :
    nodeHistLens (monitor_tick now d n).1 (k + 1) := by
  obtain ⟨h1, h2, h3, h4, h5, h6, h7, h8, h9⟩ := h
  have hbase : nodeHistLens
      (node_store_history now (node_prevent_resources (add_base_fluctuation d n)))
      (k + 1) := by
    refine ⟨?_, ?_, ?_, ?_, ?_, ?_, ?_, ?_, ?_⟩ <;>
      simp [node_store_history, node_prevent_resources, add_base_fluctuation,
        h1, h2, h3, h4, h5, h6, h7, h8, h9]
  unfold monitor_tick
  cases hc : check_resources
      (node_store_history now (node_prevent_resources (add_base_fluctuation d n))) with
  | none => simpa [hc] using hbase
  | some r =>
    simp only [hc]
    unfold node_stop
    by_cases hs : (node_store_history now (node_prevent_resources
        (add_base_fluctuation d n))).stop_lack_of_resource
    · simp only [hs, Bool.not_true, Bool.false_eq_true, if_false]
      cases hcs : (node_store_history now (node_prevent_resources
          (add_base_fluctuation d n))).containers with
      | nil => simpa [hcs] using hbase
      | cons a l => simpa [hcs] using hbase
    · simp only [Bool.not_eq_true] at hs
      simp only [hs, Bool.not_false, if_true]
      exact hbase

/-- Node buffers grow by exactly one per monitor iteration. -/
lemma nodeMonitorRun_hist_lens :
    ∀ (evs : List (ℚ × Dims)) (n : NodeState) (k : ℕ),
      nodeHistLens n k → nodeHistLens (nodeMonitorRun n evs) (k + evs.length) := by
  intro evs
  induction evs with
  | nil => intro n k h; exact h
  | cons e evs ih =>
    intro n k h
    have h1 := monitor_tick_hist_lens e.1 e.2 n k h
    have h2 := ih _ _ h1
    show nodeHistLens (nodeMonitorRun (monitor_tick e.1 e.2 n).1 evs) _
    have : k + (e :: evs).length = (k + 1) + evs.length := by
      simp [List.length_cons]
      omega
    rw [this]
    exact h2

/-- Counterexample for C8: `Simulation.run` registers `node.monitor()` at
time 0 while the node is still not running (its `start` waits for
`start_up_delay`), and the monitor loop never consults `running`; after
one monitor iteration the node's buffers have length 1 although the node
was running for zero ticks. -/
def nC8 : NodeState := NodeState.mk0 1 8 16384 20480 10000 0 0 0 0 [] false

/-- C8 fails on the code for nodes: one monitor iteration on the
never-running node `nC8` leaves every buffer at length 1 ≠ 0 running
ticks. -/
theorem node_history_grows_while_not_running :
    nC8.running = false ∧
    (monitor_tick 0 ⟨0, 0, 0, 0⟩ nC8).1.running = false ∧
    (monitor_tick 0 ⟨0, 0, 0, 0⟩ nC8).1.time_history.length = 1 ∧
    (monitor_tick 0 ⟨0, 0, 0, 0⟩ nC8).1.cpu_usage_history.length = 1 ∧
    (monitor_tick 0 ⟨0, 0, 0, 0⟩ nC8).1.available_cpu_history.length = 1 ∧
    (1 : ℕ) ≠ 0 := by
  decide

/-- C8 amended: every entity's history buffers stay aligned (five for a
container, nine for a node); a container's common length equals the
number of ticks it executed while running, while a node's common length
equals the number of monitor iterations performed, which is not in
general the number of ticks the node was running. -/
theorem history_buffers_aligned (i : ℕ)
    (cpu ram disk bw csat rsat dsat bsat : ℚ) (evs : List ContainerEvent)
    (conts : List Container) (stop_lack : Bool) (mevs : List (ℚ × Dims)) :
    containerHistLens
      (containerRun (Container.mk0 i cpu ram disk bw csat rsat dsat bsat) evs)
      (runningTickCount (Container.mk0 i cpu ram disk bw csat rsat dsat bsat) evs)
    ∧ nodeHistLens
      (nodeMonitorRun (NodeState.mk0 i cpu ram disk bw csat rsat dsat bsat
        conts stop_lack) mevs)
      mevs.length := by
  constructor
  · have := containerRun_hist_lens evs
      (Container.mk0 i cpu ram disk bw csat rsat dsat bsat) 0
      ⟨rfl, rfl, rfl, rfl, rfl⟩
    simpa using this
  · have := nodeMonitorRun_hist_lens mevs
      (NodeState.mk0 i cpu ram disk bw csat rsat dsat bsat conts stop_lack) 0
      ⟨rfl, rfl, rfl, rfl, rfl, rfl, rfl, rfl, rfl⟩
    simpa using this
